import Mathlib

/-!
Verification development for the CRD registration / reconciliation core of
`pkg/k8s/apis/cilium.io/v2/client/register.go`.

The data model (CRD objects, conditions, labels) and the operations
(`needsUpdateV1`, `constructV1CRD`, `updateV1CRD`, `waitForV1CRD`,
`createUpdateCRD`) are shallowly embedded below.  Remote control-plane calls
(Get / Create / Update / Delete) are represented by environments supplying
the outcome of each call in the order the code issues them; observable
behaviour (which calls were issued, with which request bodies, and the
returned error) is exposed in the result structures.
-/

namespace CrdRegister

/-- Status value of a CRD condition; Go tri-state ConditionTrue /
ConditionFalse / ConditionUnknown. -/
inductive ConditionStatus
  | conditionTrue
  | conditionFalse
  | conditionUnknown
deriving DecidableEq

/-- Type of a CRD condition.  The Go switch statement handles `Established`
and `NamesAccepted`; every other condition type falls through, represented by
`other`. -/
inductive CRDConditionType
  | established
  | namesAccepted
  | other (t : String)
deriving DecidableEq

/-- One CRD status condition: a (type, status, reason) triple. -/
structure CRDCondition where
  type : CRDConditionType
  status : ConditionStatus
  reason : String
deriving DecidableEq

/-- One entry of `Spec.Versions`.  The schema payload's content is opaque to
the reconciler (only nil-ness and wholesale copying matter), so it is carried
as a raw string. -/
structure CRDVersion where
  name : String
  schema : Option String
deriving DecidableEq

/-- The `Spec.Names` block of a CRD. -/
structure CRDNames where
  kind : String
  plural : String
  singular : String
  shortNames : List String
deriving DecidableEq

/-- The `Spec` block of a v1 CRD, restricted to the fields the reconciler
reads or writes. -/
structure CRDSpec where
  group : String
  names : CRDNames
  scope : String
  versions : List CRDVersion
deriving DecidableEq

/-- The `Status` block of a CRD. -/
structure CRDStatus where
  conditions : List CRDCondition
deriving DecidableEq

/-- A v1 CustomResourceDefinition object, restricted to the fields the
reconciler touches.  `labels` models `ObjectMeta.Labels` as an association
list. -/
structure CRD where
  name : String
  labels : List (String × String)
  spec : CRDSpec
  status : CRDStatus
deriving DecidableEq

/-- Lookup in the label map, Go `clusterCRD.Labels[key]`. -/
def lookupLabel (ls : List (String × String)) (k : String) : Option String :=
  (ls.find? (fun p => p.fst == k)).map (fun p => p.snd)

/-- Modelled from the spec: the build-time constants and version comparator
live outside the visible source (`k8sconstv2` constants and
`versioncheck.Version` / `MustVersion`).  Versions are "comparable version
tokens" with strict ordering, modelled as naturals; `parse` is the abstract
parser (failure = unparsable label); `baseline` models
`comparableCRDSchemaVersion = MustVersion versionStr` (their link
`parse versionStr = some baseline` is hypothesized where a claim needs it).
`key` is `CustomResourceDefinitionSchemaVersionKey`, `versionStr` is
`CustomResourceDefinitionSchemaVersion`, `group` is
`CustomResourceDefinitionGroup`. -/
structure Consts where
  key : String
  versionStr : String
  group : String
  parse : String → Option Nat
  baseline : Nat

/-- Errors returned by the remote control plane, distinguished the way the
Go code distinguishes them (`errors.IsNotFound`, `errors.IsAlreadyExists`,
`errors.IsConflict`). -/
inductive ApiError
  | notFound (msg : String)
  | alreadyExists (msg : String)
  | conflict (msg : String)
  | otherErr (msg : String)
deriving DecidableEq

/-- Go `errors.IsNotFound`. -/
def ApiError.isNotFound : ApiError → Bool
  | .notFound _ => true
  | _ => false

/-- Go `errors.IsAlreadyExists`. -/
def ApiError.isAlreadyExists : ApiError → Bool
  | .alreadyExists _ => true
  | _ => false

/-- Go `errors.IsConflict`. -/
def ApiError.isConflict : ApiError → Bool
  | .conflict _ => true
  | _ => false

/-- Message carried by a control-plane error. -/
def renderApiError : ApiError → String
  | .notFound m => m
  | .alreadyExists m => m
  | .conflict m => m
  | .otherErr m => m

/-- Embeds `needsUpdateV1`.  The Go body indexes `Spec.Versions[0]` with no
length guard; an empty versions list panics, modelled as `none`. -/
def needsUpdateV1 (K : Consts) (clusterCRD : CRD) : Option Bool :=
  match clusterCRD.spec.versions.head? with
  | none => none
  | some v0 =>
    match v0.schema with
    | none =>
      -- no validation detected
      some true
    | some _ =>
      match lookupLabel clusterCRD.labels K.key with
      | none =>
        -- no schema version detected
        some true
      | some v =>
        match K.parse v with
        | none => some true
        | some clusterVersion =>
          -- version in cluster is either unparsable or smaller than current
          some (decide (clusterVersion < K.baseline))

/-- Embeds `constructV1CRD`: builds the baseline object from the pregenerated
template, stamping the schema-version label. -/
def constructV1CRD (K : Consts) (name : String) (template : CRD) : CRD :=
  { name := name
    labels := [(K.key, K.versionStr)]
    spec :=
      { group := K.group
        names :=
          { kind := template.spec.names.kind
            plural := template.spec.names.plural
            singular := template.spec.names.singular
            shortNames := template.spec.names.shortNames }
        scope := template.spec.scope
        versions := template.spec.versions }
    status := { conditions := [] } }

/-! The Converger.  `wait.Poll` is vendored k8s machinery, not part of the
visible source. -/

/-- Outcome of one predicate invocation: done (poll succeeds), fail (poll
stops with this terminal error), or again (poll sleeps one interval and
retries) together with the updated closure state. -/
inductive PredOut (σ ε : Type)
  | done (s : σ)
  | fail (e : ε)
  | again (s : σ)
deriving DecidableEq

/-- Resolution of a bounded poll. -/
inductive PollResult (σ ε : Type)
  | success (s : σ)
  | terminal (e : ε)
  | timeout (s : σ)
deriving DecidableEq

/-- Whether a poll resolved successfully. -/
def PollResult.isSuccess {σ ε : Type} : PollResult σ ε → Bool
  | .success _ => true
  | _ => false

/-- Result of a poll run together with the number of predicate invocations
it performed. -/
structure PollRun (σ ε : Type) where
  result : PollResult σ ε
  calls : Nat
deriving DecidableEq

/-- Modelled from the spec: the Converger (`wait.Poll`) invokes the predicate
repeatedly at a fixed interval until it reports success, reports an error
(treated as terminal), or the timeout elapses without resolution (a distinct
timeout outcome).  Time is discretized: `fuel` is the number of whole
intervals in the timeout budget, `i` indexes the invocation (threading the
per-invocation environment). -/
def pollAux {σ ε : Type} (step : Nat → σ → PredOut σ ε) :
    Nat → Nat → σ → PollRun σ ε
  | 0, _, s => { result := .timeout s, calls := 0 }
  | fuel + 1, i, s =>
    match step i s with
    | .done s' => { result := .success s', calls := 1 }
    | .fail e => { result := .terminal e, calls := 1 }
    | .again s' =>
      let r := pollAux step fuel (i + 1) s'
      { result := r.result, calls := r.calls + 1 }

/-- Bounded poll starting at invocation 0. -/
def poll {σ ε : Type} (step : Nat → σ → PredOut σ ε) (attempts : Nat)
    (s : σ) : PollRun σ ε :=
  pollAux step attempts 0 s

/-- Interval and timeout handed to the Converger. -/
structure PollParams where
  intervalMs : Nat
  timeoutMs : Nat
deriving DecidableEq

/-- Number of whole polling intervals in the timeout budget. -/
def PollParams.attempts (p : PollParams) : Nat :=
  p.timeoutMs / p.intervalMs

/-- Cadence at the `poller.Poll` call site inside `updateV1CRD`:
500 ms interval, 60 s timeout. -/
def updatePollParams : PollParams :=
  { intervalMs := 500, timeoutMs := 60000 }

/-- Cadence at the `poller.Poll` call site inside `waitForV1CRD`:
500 ms interval, 60 s timeout. -/
def waitPollParams : PollParams :=
  { intervalMs := 500, timeoutMs := 60000 }

/-! The update-if-stale phase (`updateV1CRD`) and its bounded apply loop. -/

/-- Outcome of the `i`-th iteration's remote calls inside the apply loop:
the result of the `Get` refetch and, when an `Update` is issued that
iteration, its outcome (`none` = write accepted). -/
structure ApplyEnv where
  get : Except ApiError CRD
  update : Option ApiError

/-- Resolution of the apply loop. -/
inductive ApplyRes
  | ok
  | failed (e : ApiError)
  | timedOut
deriving DecidableEq

/-- Observable behaviour of one run of the apply loop: its resolution, how
many predicate invocations ran, how many `Update` calls were issued, and the
request body of the `Update` issued by the deciding iteration (if any). -/
structure ApplyRun where
  res : ApplyRes
  calls : Nat
  updatesIssued : Nat
  updateReq : Option CRD
deriving DecidableEq

/-- Embeds the closure passed to `poller.Poll` inside `updateV1CRD`, iterated
with fuel.  Per iteration: refetch (`Get` error is returned to the poller,
hence terminal); re-check staleness; if still stale overwrite labels and spec
and issue `Update` — a nil error reports done, any non-nil error (conflicts
included) is returned to the poller, hence terminal; if no longer stale,
report done.  The Go predicate has no `(false, nil)` path, so the loop never
actually re-polls.  `none` models the Go panic when a fetched object has an
empty versions list. -/
def applyLoopAux (K : Consts) (crd : CRD) (envs : Nat → ApplyEnv) :
    Nat → Nat → Option ApplyRun
  | 0, _ => some { res := .timedOut, calls := 0, updatesIssued := 0, updateReq := none }
  | _ + 1, i =>
    match (envs i).get with
    | .error e =>
      some { res := .failed e, calls := 1, updatesIssued := 0, updateReq := none }
    | .ok clusterCRD =>
      match needsUpdateV1 K clusterCRD with
      | none => none
      | some true =>
        let req := { clusterCRD with labels := crd.labels, spec := crd.spec }
        match (envs i).update with
        | none =>
          some { res := .ok, calls := 1, updatesIssued := 1, updateReq := some req }
        | some e =>
          some { res := .failed e, calls := 1, updatesIssued := 1, updateReq := some req }
      | some false =>
        some { res := .ok, calls := 1, updatesIssued := 0, updateReq := none }

/-- Embeds `updateV1CRD`: if the baseline has a schema payload and the
fetched cluster object is stale, run the bounded apply loop at the default
cadence; otherwise do nothing.  The `&&` short-circuit is preserved: when the
baseline schema is nil, `needsUpdateV1` is never evaluated.  `none` models
the Go panics on `crd.Spec.Versions[0]` (and inside `needsUpdateV1`). -/
def updateV1CRD (K : Consts) (crd clusterCRD : CRD) (envs : Nat → ApplyEnv) :
    Option ApplyRun :=
  match crd.spec.versions.head? with
  | none => none
  | some v0 =>
    if v0.schema.isSome then
      match needsUpdateV1 K clusterCRD with
      | none => none
      | some true => applyLoopAux K crd envs updatePollParams.attempts 0
      | some false =>
        some { res := .ok, calls := 0, updatesIssued := 0, updateReq := none }
    else
      some { res := .ok, calls := 0, updatesIssued := 0, updateReq := none }

/-! The wait-for-ready phase (`waitForV1CRD`). -/

/-- Result of scanning a condition list the way the wait predicate's
`for`/`switch` does: the first decisive condition wins. -/
inductive ScanOut
  | established
  | conflict (reason : String)
  | undecided
deriving DecidableEq

/-- Scan of `Status.Conditions`: `Established` with status true reports
ready; `NamesAccepted` with status false reports a naming conflict carrying
the condition's reason; anything else falls through to the next condition. -/
def scanConditions : List CRDCondition → ScanOut
  | [] => .undecided
  | c :: rest =>
    match c.type with
    | .established =>
      if c.status = .conditionTrue then .established else scanConditions rest
    | .namesAccepted =>
      if c.status = .conditionFalse then .conflict c.reason else scanConditions rest
    | .other _ => scanConditions rest

/-- Terminal errors the ready predicate can report: a naming conflict
(`goerrors.New(cond.Reason)`) or a failed refetch. -/
inductive WaitErr
  | nameConflict (reason : String)
  | api (e : ApiError)
deriving DecidableEq

/-- Message of a terminal wait-predicate error. -/
def renderWaitErr : WaitErr → String
  | .nameConflict reason => reason
  | .api e => renderApiError e

/-- Outcome of the `i`-th iteration's `Get` inside the wait loop. -/
structure WaitEnv where
  get : Except ApiError CRD

/-- Embeds the closure passed to `poller.Poll` inside `waitForV1CRD`: scan
the current object's conditions; if undecided, refetch (`Get` error is
terminal) and go again with the fresh object. -/
def waitStep (envs : Nat → WaitEnv) (i : Nat) (crd : CRD) : PredOut CRD WaitErr :=
  match scanConditions crd.status.conditions with
  | .established => .done crd
  | .conflict reason => .fail (.nameConflict reason)
  | .undecided =>
    match (envs i).get with
    | .error e => .fail (.api e)
    | .ok crd' => .again crd'

/-- Error of a whole poll run: a terminal predicate error, or the poller's
distinct timeout error (`wait.ErrWaitTimeout`). -/
inductive PollErr (ε : Type)
  | cond (e : ε)
  | timedOut
deriving DecidableEq

/-- Message of a wait-loop poll error; the timeout message is the poller's
distinct timeout error. -/
def renderWaitPollErr : PollErr WaitErr → String
  | .cond e => renderWaitErr e
  | .timedOut => "timed out waiting for the condition"

/-- Error returned by `waitForV1CRD`: `fmt.Errorf("unable to delete CRD: %w",
deleteErr)` when the compensating delete fails, else
`fmt.Errorf("error occurred waiting for CRD: %w", err)`. -/
inductive WaitRetErr
  | unableToDelete (deleteErr : ApiError)
  | errorWaiting (e : PollErr WaitErr)
deriving DecidableEq

/-- Message of the error returned by `waitForV1CRD`. -/
def renderWaitRetErr : WaitRetErr → String
  | .unableToDelete e => "unable to delete CRD: " ++ renderApiError e
  | .errorWaiting e => "error occurred waiting for CRD: " ++ renderWaitPollErr e

/-- Observable behaviour of one run of `waitForV1CRD`: how the poll resolved,
how many predicate invocations ran, how many `Delete` calls were issued, and
the returned error (`none` = success). -/
structure WaitOutcome where
  pollResult : PollResult CRD WaitErr
  calls : Nat
  deletes : Nat
  ret : Option WaitRetErr
deriving DecidableEq

/-- Maps a finished poll run to `waitForV1CRD`'s return: on any poll error
(terminal or timeout) issue one compensating `Delete`; if the delete fails,
return the delete error, else wrap the original poll error. -/
def waitOutcomeOf (run : PollRun CRD WaitErr) (deleteResult : Option ApiError) :
    WaitOutcome :=
  match run.result with
  | .success s =>
    { pollResult := .success s, calls := run.calls, deletes := 0, ret := none }
  | .terminal e =>
    match deleteResult with
    | some de =>
      { pollResult := .terminal e, calls := run.calls, deletes := 1
        ret := some (.unableToDelete de) }
    | none =>
      { pollResult := .terminal e, calls := run.calls, deletes := 1
        ret := some (.errorWaiting (.cond e)) }
  | .timeout s =>
    match deleteResult with
    | some de =>
      { pollResult := .timeout s, calls := run.calls, deletes := 1
        ret := some (.unableToDelete de) }
    | none =>
      { pollResult := .timeout s, calls := run.calls, deletes := 1
        ret := some (.errorWaiting .timedOut) }

/-- Embeds `waitForV1CRD`: poll the ready predicate at the default cadence
starting from the object the caller fetched or created; on any poll failure
issue one compensating `Delete` of the object and combine the errors as the
code does. -/
def waitForV1CRD (crd : CRD) (envs : Nat → WaitEnv)
    (deleteResult : Option ApiError) : WaitOutcome :=
  waitOutcomeOf (poll (waitStep envs) waitPollParams.attempts crd) deleteResult

/-! The per-kind reconciliation driver (`createUpdateCRD`). -/

/-- Remote-call outcomes for one run of `createUpdateCRD` for one kind:
the initial `Get`, the `Create` (consulted only when the `Get` reported
not-found; `ok` carries the server-returned object), the per-iteration
environments of the apply and wait loops, and the outcome of the
compensating `Delete` (consulted only if the wait phase fails). -/
structure ReconcileEnv where
  initialGet : Except ApiError CRD
  createResult : Except ApiError CRD
  applyEnvs : Nat → ApplyEnv
  waitEnvs : Nat → WaitEnv
  deleteResult : Option ApiError

/-- Error returned by one per-kind reconciliation, tagged by the phase whose
error is propagated. -/
inductive FlowErr
  | getFailed (e : ApiError)
  | createFailed (e : ApiError)
  | updateFailed (e : PollErr ApiError)
  | waitFailed (e : WaitRetErr)
deriving DecidableEq

/-- Observable behaviour of one per-kind reconciliation. -/
structure FlowResult where
  err : Option FlowErr
  updatesIssued : Nat
  applyCalls : Nat
  waitCalls : Nat
  deletes : Nat
deriving DecidableEq

/-- Error propagated out of `updateV1CRD`, if any. -/
def applyResErr : ApplyRes → Option (PollErr ApiError)
  | .ok => none
  | .failed e => some (.cond e)
  | .timedOut => some .timedOut

/-- Steps 2 and 3 of the per-kind reconciliation, entered once a cluster
object is in hand: run `updateV1CRD`; on error return it (no delete); else
run `waitForV1CRD` on the same object the caller fetched or created (the
apply loop's refetches do not flow back to the caller's variable). -/
def afterLookup (K : Consts) (crd clusterCRD : CRD) (env : ReconcileEnv) :
    Option FlowResult :=
  match updateV1CRD K crd clusterCRD env.applyEnvs with
  | none => none
  | some run =>
    match applyResErr run.res with
    | some e =>
      some { err := some (.updateFailed e), updatesIssued := run.updatesIssued
             applyCalls := run.calls, waitCalls := 0, deletes := 0 }
    | none =>
      let w := waitForV1CRD clusterCRD env.waitEnvs env.deleteResult
      some { err := w.ret.map .waitFailed, updatesIssued := run.updatesIssued
             applyCalls := run.calls, waitCalls := w.calls, deletes := w.deletes }

/-- The v1 body of `createUpdateCRD`: lookup by name; not-found triggers
`Create`, where an already-exists failure is a benign race and short-circuits
to success; any other pending error returns; then update-if-stale and
wait-for-ready. -/
def createUpdateV1Body (K : Consts) (crd : CRD) (env : ReconcileEnv) :
    Option FlowResult :=
  match env.initialGet with
  | .error e =>
    if e.isNotFound then
      match env.createResult with
      | .error ce =>
        if ce.isAlreadyExists then
          some { err := none, updatesIssued := 0, applyCalls := 0
                 waitCalls := 0, deletes := 0 }
        else
          some { err := some (.createFailed ce), updatesIssued := 0
                 applyCalls := 0, waitCalls := 0, deletes := 0 }
      | .ok clusterCRD => afterLookup K crd clusterCRD env
    else
      some { err := some (.getFailed e), updatesIssued := 0, applyCalls := 0
             waitCalls := 0, deletes := 0 }
  | .ok clusterCRD => afterLookup K crd clusterCRD env

/-- Result of `createUpdateCRD`: either the capability detector reported no
v1 support and the run was delegated to the v1beta1 mirror protocol, or the
v1 flow ran to a result. -/
inductive FlowOutcome
  | delegatedToV1beta1
  | done (r : FlowResult)
deriving DecidableEq

/-- Projection onto the v1 flow result. -/
def FlowOutcome.flowResult : FlowOutcome → Option FlowResult
  | .delegatedToV1beta1 => none
  | .done r => some r

/-- Embeds `createUpdateCRD`: consult the capability detector
(`k8sversion.Capabilities().APIExtensionsV1CRD`); without v1 support delegate
to `createUpdateV1beta1CRD` (the structurally parallel legacy mirror, not
modelled further), otherwise run the v1 flow. -/
def createUpdateCRD (K : Consts) (v1Supported : Bool) (crd : CRD)
    (env : ReconcileEnv) : Option FlowOutcome :=
  if v1Supported then
    match createUpdateV1Body K crd env with
    | none => none
    | some r => some (.done r)
  else
    some .delegatedToV1beta1

/-! String containment, used to state what an error message does or does not
report. -/

/-- Whether `needle` occurs at the head of `hay` (character lists). -/
def charListHeadMatch : List Char → List Char → Bool
  | [], _ => true
  | _ :: _, [] => false
  | a :: as, b :: bs => a == b && charListHeadMatch as bs

/-- Whether `needle` occurs anywhere inside `hay` (character lists). -/
def charListFind (needle : List Char) : List Char → Bool
  | [] => needle.isEmpty
  | b :: bs => charListHeadMatch needle (b :: bs) || charListFind needle bs

/-- Whether string `hay` contains `needle` as a substring. -/
def strContains (hay needle : String) : Bool :=
  charListFind needle.data hay.data

/-! Concrete fixtures used by witnesses and counterexamples. -/

/-- A concrete `Spec.Names` block. -/
def names0 : CRDNames :=
  { kind := "CiliumNetworkPolicy", plural := "ciliumnetworkpolicies"
    singular := "ciliumnetworkpolicy", shortNames := ["cnp"] }

/-- A concrete versions entry carrying a schema payload. -/
def version0 : CRDVersion := { name := "v2", schema := some "openAPIV3Schema" }

/-- A concrete pregenerated template. -/
def template0 : CRD :=
  { name := "template", labels := []
    spec := { group := "cilium.io", names := names0, scope := "Cluster"
              versions := [version0] }
    status := { conditions := [] } }

/-- Decimal parser used as the fixture's version parser: every character a
digit (and at least one) or the token is unparsable. -/
def parseDecimal (s : String) : Option Nat :=
  match s.data with
  | [] => none
  | cs =>
    if cs.all Char.isDigit then
      some (cs.foldl (fun acc c => acc * 10 + (c.toNat - 48)) 0)
    else
      none

/-- Concrete build constants: numeric version tokens, baseline version 3
written "3". -/
def K0 : Consts :=
  { key := "io.cilium.k8s.crd.schema.version", versionStr := "3"
    group := "cilium.io", parse := parseDecimal, baseline := 3 }

/-- The concrete baseline object for the fixture kind. -/
def baseCRD : CRD := constructV1CRD K0 "ciliumnetworkpolicies.cilium.io" template0

/-- A concrete cluster object whose version label "2" is strictly behind the
baseline "3". -/
def staleCRD : CRD := { baseCRD with labels := [(K0.key, "2")] }

/-- A concrete cluster object whose versions list is empty. -/
def noVersionsCRD : CRD := { baseCRD with spec := { baseCRD.spec with versions := [] } }

/-- A concrete baseline object whose only versions entry carries no schema. -/
def noSchemaCRD : CRD :=
  { baseCRD with spec := { baseCRD.spec with versions := [{ name := "v2", schema := none }] } }

/-! Theorems settling the claims. -/

/-- C4: the staleness check `needsUpdateV1` returns true iff the object has
no schema payload recorded (first version's schema is nil), or its
schema-version label is absent, or the label is unparsable, or the parsed
label version is strictly less than the baseline version; in all other cases
it returns false. -/
theorem needsUpdateV1_spec (K : Consts) (crd : CRD) (v0 : CRDVersion)
    (vs : List CRDVersion) (hv : crd.spec.versions = v0 :: vs) :
    (needsUpdateV1 K crd = some true ↔
      v0.schema = none ∨
      lookupLabel crd.labels K.key = none ∨
      (∃ s, lookupLabel crd.labels K.key = some s ∧ K.parse s = none) ∨
      (∃ s v, lookupLabel crd.labels K.key = some s ∧ K.parse s = some v ∧
        v < K.baseline)) ∧
    (needsUpdateV1 K crd = some false ↔
      ¬(v0.schema = none ∨
        lookupLabel crd.labels K.key = none ∨
        (∃ s, lookupLabel crd.labels K.key = some s ∧ K.parse s = none) ∨
        (∃ s v, lookupLabel crd.labels K.key = some s ∧ K.parse s = some v ∧
          v < K.baseline))) := by
  cases hs : v0.schema with
  | none => simp [needsUpdateV1, hv, hs]
  | some sch =>
    cases hl : lookupLabel crd.labels K.key with
    | none => simp [needsUpdateV1, hv, hs, hl]
    | some s =>
      cases hp : K.parse s with
      | none => simp [needsUpdateV1, hv, hs, hl, hp]
      | some v =>
        by_cases hlt : v < K.baseline
        · simp [needsUpdateV1, hv, hs, hl, hp, hlt]
        · simp [needsUpdateV1, hv, hs, hl, hp, hlt]

/-- Witness for C4 at the concrete stale fixture: label "2" parses below
baseline 3, so the check reports true via the strict comparison disjunct. -/
theorem needsUpdateV1_spec_witness :
    (needsUpdateV1 K0 staleCRD = some true ↔
      version0.schema = none ∨
      lookupLabel staleCRD.labels K0.key = none ∨
      (∃ s, lookupLabel staleCRD.labels K0.key = some s ∧ K0.parse s = none) ∨
      (∃ s v, lookupLabel staleCRD.labels K0.key = some s ∧ K0.parse s = some v ∧
        v < K0.baseline)) ∧
    (needsUpdateV1 K0 staleCRD = some false ↔
      ¬(version0.schema = none ∨
        lookupLabel staleCRD.labels K0.key = none ∨
        (∃ s, lookupLabel staleCRD.labels K0.key = some s ∧ K0.parse s = none) ∨
        (∃ s v, lookupLabel staleCRD.labels K0.key = some s ∧ K0.parse s = some v ∧
          v < K0.baseline))) :=
  needsUpdateV1_spec K0 staleCRD version0 [] rfl

/-- C10: `needsUpdateV1` indexes position 0 of the versions list with no
length guard, so it panics (modelled `none`) exactly on an empty versions
list; under the precondition that the list is non-empty it is total (the
out-of-bounds branch is unreachable). -/
theorem needsUpdateV1_totality (K : Consts) (crd : CRD) :
    (crd.spec.versions = [] → needsUpdateV1 K crd = none) ∧
    (crd.spec.versions ≠ [] → (needsUpdateV1 K crd).isSome = true) := by
  constructor
  · intro h
    simp [needsUpdateV1, h]
  · intro h
    cases hv : crd.spec.versions with
    | nil => exact absurd hv h
    | cons v0 vs =>
      cases hs : v0.schema with
      | none => simp [needsUpdateV1, hv, hs]
      | some sch =>
        cases hl : lookupLabel crd.labels K.key with
        | none => simp [needsUpdateV1, hv, hs, hl]
        | some s =>
          cases hp : K.parse s with
          | none => simp [needsUpdateV1, hv, hs, hl, hp]
          | some v => simp [needsUpdateV1, hv, hs, hl, hp]

/-- Witness for C10: the empty-versions fixture hits the modelled panic, the
non-empty fixture does not. -/
theorem needsUpdateV1_totality_witness :
    needsUpdateV1 K0 noVersionsCRD = none ∧
    (needsUpdateV1 K0 staleCRD).isSome = true :=
  ⟨(needsUpdateV1_totality K0 noVersionsCRD).1 rfl,
   (needsUpdateV1_totality K0 staleCRD).2 (by decide)⟩

/-- C9: when the baseline object carries no schema payload (first version's
schema is nil), the update-if-stale phase issues no `Update` call at all —
regardless of the cluster object — so the cluster object's labels and spec
are left unchanged. -/
theorem updateV1CRD_nilSchema_noop (K : Consts) (crd clusterCRD : CRD)
    (envs : Nat → ApplyEnv) (v0 : CRDVersion) (vs : List CRDVersion)
    (hv : crd.spec.versions = v0 :: vs) (hs : v0.schema = none) :
    updateV1CRD K crd clusterCRD envs =
      some { res := .ok, calls := 0, updatesIssued := 0, updateReq := none } := by
  simp [updateV1CRD, hv, hs]

/-- Helper: at any non-exhausted iteration whose refetch succeeds on a stale
object, a failing `Update` resolves the apply loop immediately with that
error. -/
lemma applyLoopAux_step_err (K : Consts) (crd : CRD) (envs : Nat → ApplyEnv)
    (c : CRD) (e : ApiError) (fuel i : Nat) (hf : fuel ≠ 0)
    (hget : (envs i).get = .ok c)
    (hneed : needsUpdateV1 K c = some true)
    (hupd : (envs i).update = some e) :
    applyLoopAux K crd envs fuel i =
      some { res := .failed e, calls := 1, updatesIssued := 1
             updateReq := some { c with labels := crd.labels, spec := crd.spec } } := by
  cases fuel with
  | zero => exact absurd rfl hf
  | succ n => simp [applyLoopAux, hget, hneed, hupd]

/-- Helper: at any non-exhausted iteration whose refetch succeeds on a stale
object, a successful `Update` resolves the apply loop with the overwritten
object as request body. -/
lemma applyLoopAux_step_ok (K : Consts) (crd : CRD) (envs : Nat → ApplyEnv)
    (c : CRD) (fuel i : Nat) (hf : fuel ≠ 0)
    (hget : (envs i).get = .ok c)
    (hneed : needsUpdateV1 K c = some true)
    (hupd : (envs i).update = none) :
    applyLoopAux K crd envs fuel i =
      some { res := .ok, calls := 1, updatesIssued := 1
             updateReq := some { c with labels := crd.labels, spec := crd.spec } } := by
  cases fuel with
  | zero => exact absurd rfl hf
  | succ n => simp [applyLoopAux, hget, hneed, hupd]

/-- Helper: a cluster object with a non-empty versions list whose version
label parses strictly below baseline is stale. -/
lemma needsUpdateV1_of_label_lt (K : Consts) (c0 : CRD) (w0 : CRDVersion)
    (ws : List CRDVersion) (s0 : String) (vc : Nat)
    (hcv : c0.spec.versions = w0 :: ws)
    (hlbl : lookupLabel c0.labels K.key = some s0)
    (hparse : K.parse s0 = some vc) (hlt : vc < K.baseline) :
    needsUpdateV1 K c0 = some true := by
  cases hs : w0.schema with
  | none => simp [needsUpdateV1, hcv, hs]
  | some sch => simp [needsUpdateV1, hcv, hs, hlbl, hparse, hlt]

/-- Environments for the conflict counterexample: the first write reports an
optimistic-concurrency conflict; any further iteration's write would
succeed. -/
def conflictEnvs : Nat → ApplyEnv :=
  fun i =>
    if i = 0 then
      { get := .ok staleCRD, update := some (.conflict "object was modified") }
    else
      { get := .ok staleCRD, update := none }

/-- Counterexample to C3: with the baseline and stale fixtures, a conflict on
the first write makes the apply loop terminate with that conflict error after
a single predicate invocation — it does not report "not yet succeeded", and
it does not retry even though the very next iteration's write would have
succeeded. -/
theorem updateV1CRD_conflict_cex :
    (updateV1CRD K0 baseCRD staleCRD conflictEnvs).map ApplyRun.res =
      some (.failed (.conflict "object was modified")) ∧
    (updateV1CRD K0 baseCRD staleCRD conflictEnvs).map ApplyRun.calls = some 1 ∧
    (conflictEnvs 1).update = none := by
  refine ⟨?_, ?_, rfl⟩ <;> decide

/-- C3 (amended): when the write of labels and spec fails with an
optimistic-concurrency conflict, the predicate reports that conflict as an
error, so the loop terminates with the conflict error on that invocation
rather than retrying with a fresh read. -/
theorem updateV1CRD_conflict_terminates (K : Consts) (crd clusterCRD : CRD)
    (envs : Nat → ApplyEnv) (c : CRD) (e : ApiError)
    (v0 : CRDVersion) (vs : List CRDVersion)
    (hv : crd.spec.versions = v0 :: vs) (hsch : v0.schema.isSome = true)
    (hstale : needsUpdateV1 K clusterCRD = some true)
    (hget : (envs 0).get = .ok c)
    (hneed : needsUpdateV1 K c = some true)
    (hupd : (envs 0).update = some e)
    (_hc : e.isConflict = true) :
    updateV1CRD K crd clusterCRD envs =
      some { res := .failed e, calls := 1, updatesIssued := 1
             updateReq := some { c with labels := crd.labels, spec := crd.spec } } := by
  have h120 : updatePollParams.attempts ≠ 0 := by decide
  simp only [updateV1CRD, hv, List.head?_cons, hsch, if_true, hstale]
  exact applyLoopAux_step_err K crd envs c e updatePollParams.attempts 0 h120 hget hneed hupd

/-- Witness for the amended C3 at the concrete fixtures. -/
theorem updateV1CRD_conflict_terminates_witness :
    updateV1CRD K0 baseCRD staleCRD conflictEnvs =
      some { res := .failed (.conflict "object was modified"), calls := 1
             updatesIssued := 1
             updateReq := some { staleCRD with labels := baseCRD.labels, spec := baseCRD.spec } } :=
  updateV1CRD_conflict_terminates K0 baseCRD staleCRD conflictEnvs staleCRD
    (.conflict "object was modified") version0 [] rfl rfl (by decide) rfl
    (by decide) rfl rfl

/-- C7: given a cluster object whose schema-version label parses strictly
below the baseline, one run of the update-if-stale phase in which the refetch
returns that object and the write is accepted issues exactly one `Update`
whose body carries the baseline object's labels (hence the baseline version
label, which parses to the baseline version) and the baseline spec. -/
theorem updateV1CRD_convergence (K : Consts) (name : String) (template c0 : CRD)
    (envs : Nat → ApplyEnv) (v0 : CRDVersion) (vs : List CRDVersion)
    (w0 : CRDVersion) (ws : List CRDVersion) (s0 : String) (vc : Nat)
    (hwf : K.parse K.versionStr = some K.baseline)
    (htv : template.spec.versions = v0 :: vs) (hts : v0.schema.isSome = true)
    (hcv : c0.spec.versions = w0 :: ws)
    (hlbl : lookupLabel c0.labels K.key = some s0)
    (hparse : K.parse s0 = some vc) (hlt : vc < K.baseline)
    (hget : (envs 0).get = .ok c0) (hupd : (envs 0).update = none) :
    updateV1CRD K (constructV1CRD K name template) c0 envs =
      some { res := .ok, calls := 1, updatesIssued := 1
             updateReq := some { c0 with
               labels := (constructV1CRD K name template).labels
               spec := (constructV1CRD K name template).spec } } ∧
    lookupLabel (constructV1CRD K name template).labels K.key = some K.versionStr ∧
    K.parse K.versionStr = some K.baseline := by
  have hstale : needsUpdateV1 K c0 = some true :=
    needsUpdateV1_of_label_lt K c0 w0 ws s0 vc hcv hlbl hparse hlt
  have h120 : updatePollParams.attempts ≠ 0 := by decide
  refine ⟨?_, ?_, hwf⟩
  · have hcrd : (constructV1CRD K name template).spec.versions = v0 :: vs := htv
    simp only [updateV1CRD, hcrd, List.head?_cons, hts, if_true, hstale]
    exact applyLoopAux_step_ok K (constructV1CRD K name template) envs c0
      updatePollParams.attempts 0 h120 hget hstale hupd
  · simp [constructV1CRD, lookupLabel]

/-- Witness for C7 at the concrete fixtures: the stale object with label "2"
is rewritten to the baseline labels (version "3") and baseline spec. -/
theorem updateV1CRD_convergence_witness :
    updateV1CRD K0 (constructV1CRD K0 "ciliumnetworkpolicies.cilium.io" template0)
        staleCRD (fun _ => { get := .ok staleCRD, update := none }) =
      some { res := .ok, calls := 1, updatesIssued := 1
             updateReq := some { staleCRD with
               labels := (constructV1CRD K0 "ciliumnetworkpolicies.cilium.io" template0).labels
               spec := (constructV1CRD K0 "ciliumnetworkpolicies.cilium.io" template0).spec } } ∧
    lookupLabel (constructV1CRD K0 "ciliumnetworkpolicies.cilium.io" template0).labels K0.key =
      some K0.versionStr ∧
    K0.parse K0.versionStr = some K0.baseline :=
  updateV1CRD_convergence K0 "ciliumnetworkpolicies.cilium.io" template0 staleCRD
    (fun _ => { get := .ok staleCRD, update := none }) version0 [] version0 []
    "2" 2 (by decide) rfl rfl rfl (by decide) (by decide) (by decide) rfl rfl

/-- Witness for C9: the no-schema baseline fixture against the (stale)
cluster fixture issues no update. -/
theorem updateV1CRD_nilSchema_noop_witness :
    updateV1CRD K0 noSchemaCRD staleCRD (fun _ => { get := .ok staleCRD, update := none }) =
      some { res := .ok, calls := 0, updatesIssued := 0, updateReq := none } :=
  updateV1CRD_nilSchema_noop K0 noSchemaCRD staleCRD
    (fun _ => { get := .ok staleCRD, update := none })
    { name := "v2", schema := none } [] rfl rfl

/-- Helper: a poll whose predicate fails on its first invocation resolves
terminally after exactly one call, whatever the remaining budget. -/
lemma pollAux_first_fail {σ ε : Type} (step : Nat → σ → PredOut σ ε) (i : Nat)
    (s : σ) (e : ε) (fuel : Nat) (hf : fuel ≠ 0) (h : step i s = .fail e) :
    pollAux step fuel i s = { result := .terminal e, calls := 1 } := by
  cases fuel with
  | zero => exact absurd rfl hf
  | succ n => simp [pollAux, h]

/-- Helper: if every reachable state makes the predicate report "not yet",
the poll consumes its entire budget and resolves with the distinct timeout
outcome. -/
lemma pollAux_timeout_of_invariant {σ ε : Type} (step : Nat → σ → PredOut σ ε)
    (Inv : σ → Prop)
    (h : ∀ i s, Inv s → ∃ s', step i s = .again s' ∧ Inv s') :
    ∀ fuel i s, Inv s →
      (pollAux step fuel i s).calls = fuel ∧
      ∃ t, (pollAux step fuel i s).result = .timeout t := by
  intro fuel
  induction fuel with
  | zero => exact fun i s _ => ⟨rfl, s, rfl⟩
  | succ n ih =>
    intro i s hs
    obtain ⟨s', hstep, hs'⟩ := h i s hs
    obtain ⟨hcalls, t, hres⟩ := ih (i + 1) s' hs'
    exact ⟨by simp [pollAux, hstep, hcalls], t, by simp [pollAux, hstep, hres]⟩

/-- Helper: if some condition reports NamesAccepted=false and none reports
Established=true, the scan resolves to a naming conflict carrying the reason
of such a condition. -/
lemma scanConditions_conflict :
    ∀ l : List CRDCondition,
      (∃ c, c ∈ l ∧ c.type = .namesAccepted ∧ c.status = .conditionFalse) →
      (∀ c, c ∈ l → ¬(c.type = .established ∧ c.status = .conditionTrue)) →
      ∃ c, c ∈ l ∧ c.type = .namesAccepted ∧ c.status = .conditionFalse ∧
        scanConditions l = .conflict c.reason := by
  intro l
  induction l with
  | nil =>
    rintro ⟨c, hc, -⟩ -
    exact absurd hc (List.not_mem_nil c)
  | cons a t ih =>
    rintro ⟨c, hc, hcT, hcS⟩ hEst
    cases haT : a.type with
    | established =>
      have haS : ¬a.status = .conditionTrue :=
        fun h => hEst a (List.mem_cons_self a t) ⟨haT, h⟩
      have hct : c ∈ t := by
        rcases List.mem_cons.mp hc with rfl | hct
        · exact absurd haT (by rw [hcT]; intro h; cases h)
        · exact hct
      obtain ⟨c', h1, h2, h3, h4⟩ :=
        ih ⟨c, hct, hcT, hcS⟩ (fun d hd => hEst d (List.mem_cons_of_mem a hd))
      exact ⟨c', List.mem_cons_of_mem a h1, h2, h3,
        by simp [scanConditions, haT, haS, h4]⟩
    | namesAccepted =>
      by_cases haS : a.status = .conditionFalse
      · exact ⟨a, List.mem_cons_self a t, haT, haS,
          by simp [scanConditions, haT, haS]⟩
      · have hct : c ∈ t := by
          rcases List.mem_cons.mp hc with rfl | hct
          · exact absurd hcS haS
          · exact hct
        obtain ⟨c', h1, h2, h3, h4⟩ :=
          ih ⟨c, hct, hcT, hcS⟩ (fun d hd => hEst d (List.mem_cons_of_mem a hd))
        exact ⟨c', List.mem_cons_of_mem a h1, h2, h3,
          by simp [scanConditions, haT, haS, h4]⟩
    | other ty =>
      have hct : c ∈ t := by
        rcases List.mem_cons.mp hc with rfl | hct
        · exact absurd haT (by rw [hcT]; intro h; cases h)
        · exact hct
      obtain ⟨c', h1, h2, h3, h4⟩ :=
        ih ⟨c, hct, hcT, hcS⟩ (fun d hd => hEst d (List.mem_cons_of_mem a hd))
      exact ⟨c', List.mem_cons_of_mem a h1, h2, h3,
        by simp [scanConditions, haT, h4]⟩

/-- Helper: whenever `waitForV1CRD` returns an error, exactly one
compensating delete was issued. -/
lemma waitForV1CRD_ret_deletes (crd : CRD) (envs : Nat → WaitEnv)
    (d : Option ApiError) :
    (waitForV1CRD crd envs d).ret.isSome = true →
    (waitForV1CRD crd envs d).deletes = 1 := by
  intro h
  rcases hrun : poll (waitStep envs) waitPollParams.attempts crd with ⟨res, cls⟩
  unfold waitForV1CRD at h ⊢
  rw [hrun] at h ⊢
  cases res <;> cases d <;> simp_all [waitOutcomeOf]

/-- C6: when the ready predicate observes a NamesAccepted condition with
status false (and no Established=true condition decides the scan first), the
wait loop terminates on that very invocation with a terminal error whose
message is the condition's reported reason — one predicate call, not the
whole budget — and exactly one compensating delete is issued. -/
theorem waitForV1CRD_fastFail (crd : CRD) (envs : Nat → WaitEnv)
    (deleteResult : Option ApiError)
    (hNA : ∃ c, c ∈ crd.status.conditions ∧ c.type = .namesAccepted ∧
      c.status = .conditionFalse)
    (hEst : ∀ c, c ∈ crd.status.conditions →
      ¬(c.type = .established ∧ c.status = .conditionTrue)) :
    ∃ c, c ∈ crd.status.conditions ∧ c.type = .namesAccepted ∧
      c.status = .conditionFalse ∧
      (waitForV1CRD crd envs deleteResult).pollResult =
        .terminal (.nameConflict c.reason) ∧
      renderWaitErr (.nameConflict c.reason) = c.reason ∧
      (waitForV1CRD crd envs deleteResult).calls = 1 ∧
      (waitForV1CRD crd envs deleteResult).deletes = 1 := by
  obtain ⟨c, hmem, hT, hS, hscan⟩ :=
    scanConditions_conflict crd.status.conditions hNA hEst
  have hstep : waitStep envs 0 crd = .fail (.nameConflict c.reason) := by
    simp [waitStep, hscan]
  have hpoll : poll (waitStep envs) waitPollParams.attempts crd =
      { result := .terminal (.nameConflict c.reason), calls := 1 } :=
    pollAux_first_fail (waitStep envs) 0 crd (.nameConflict c.reason)
      waitPollParams.attempts (by decide) hstep
  refine ⟨c, hmem, hT, hS, ?_, rfl, ?_, ?_⟩ <;>
    cases deleteResult <;> simp [waitForV1CRD, hpoll, waitOutcomeOf]

/-- A concrete cluster object reporting a naming conflict. -/
def conflictCRD : CRD :=
  { staleCRD with status := { conditions :=
      [{ type := .namesAccepted, status := .conditionFalse
         reason := "MustNotConflict" }] } }

/-- Witness for C6 at the conflict fixture: terminal after one call, reason
embedded, one delete issued. -/
theorem waitForV1CRD_fastFail_witness :
    ∃ c, c ∈ conflictCRD.status.conditions ∧ c.type = .namesAccepted ∧
      c.status = .conditionFalse ∧
      (waitForV1CRD conflictCRD (fun _ => { get := .ok conflictCRD }) none).pollResult =
        .terminal (.nameConflict c.reason) ∧
      renderWaitErr (.nameConflict c.reason) = c.reason ∧
      (waitForV1CRD conflictCRD (fun _ => { get := .ok conflictCRD }) none).calls = 1 ∧
      (waitForV1CRD conflictCRD (fun _ => { get := .ok conflictCRD }) none).deletes = 1 :=
  waitForV1CRD_fastFail conflictCRD (fun _ => { get := .ok conflictCRD }) none
    ⟨{ type := .namesAccepted, status := .conditionFalse, reason := "MustNotConflict" },
      List.mem_cons_self _ _, rfl, rfl⟩
    (by decide)

/-- C8: both the apply loop and the ready-wait loop are invoked at a 500 ms
interval with a 60 s timeout (120 whole intervals), and a ready predicate
that never reports success and never reports an error makes the wait loop
consume all 120 invocations and fail with the poller's distinct timeout
error — never earlier, and never by silently succeeding. -/
theorem pollCadence_timeoutBound (crd : CRD) (envs : Nat → WaitEnv)
    (deleteResult : Option ApiError)
    (h0 : scanConditions crd.status.conditions = .undecided)
    (h : ∀ i, ∃ c, (envs i).get = .ok c ∧
      scanConditions c.status.conditions = .undecided) :
    updatePollParams.intervalMs = 500 ∧ updatePollParams.timeoutMs = 60000 ∧
    waitPollParams.intervalMs = 500 ∧ waitPollParams.timeoutMs = 60000 ∧
    waitPollParams.attempts = 120 ∧
    (waitForV1CRD crd envs deleteResult).calls = 120 ∧
    (∃ t, (waitForV1CRD crd envs deleteResult).pollResult = .timeout t) ∧
    (waitForV1CRD crd envs deleteResult).ret.isSome = true ∧
    (deleteResult = none →
      (waitForV1CRD crd envs deleteResult).ret =
        some (.errorWaiting .timedOut)) := by
  have hinv : ∀ i s, scanConditions (CRD.status s).conditions = .undecided →
      ∃ s', waitStep envs i s = .again s' ∧
        scanConditions (CRD.status s').conditions = .undecided := by
    intro i s hs
    obtain ⟨c, hget, hc⟩ := h i
    exact ⟨c, by simp [waitStep, hs, hget], hc⟩
  obtain ⟨hcalls, t, hres⟩ :=
    pollAux_timeout_of_invariant (waitStep envs)
      (fun s => scanConditions s.status.conditions = .undecided) hinv
      waitPollParams.attempts 0 crd h0
  have hcalls' : (poll (waitStep envs) waitPollParams.attempts crd).calls =
      waitPollParams.attempts := hcalls
  have hres' : (poll (waitStep envs) waitPollParams.attempts crd).result =
      .timeout t := hres
  have hrun : poll (waitStep envs) waitPollParams.attempts crd =
      { result := .timeout t, calls := 120 } := by
    rcases hq : poll (waitStep envs) waitPollParams.attempts crd with ⟨res, cls⟩
    rw [hq] at hcalls' hres'
    simp only at hcalls' hres'
    rw [hcalls', hres']
    norm_num [waitPollParams, PollParams.attempts]
  refine ⟨rfl, rfl, rfl, rfl, by decide, ?_, ?_, ?_, ?_⟩ <;>
    cases deleteResult <;> simp [waitForV1CRD, hrun, waitOutcomeOf]

/-- Witness for C8: a conditionless object refetched forever consumes the
whole 120-invocation budget and times out. -/
theorem pollCadence_timeoutBound_witness :
    updatePollParams.intervalMs = 500 ∧ updatePollParams.timeoutMs = 60000 ∧
    waitPollParams.intervalMs = 500 ∧ waitPollParams.timeoutMs = 60000 ∧
    waitPollParams.attempts = 120 ∧
    (waitForV1CRD staleCRD (fun _ => { get := .ok staleCRD }) none).calls = 120 ∧
    (∃ t, (waitForV1CRD staleCRD (fun _ => { get := .ok staleCRD }) none).pollResult =
      .timeout t) ∧
    (waitForV1CRD staleCRD (fun _ => { get := .ok staleCRD }) none).ret.isSome = true ∧
    (none = (none : Option ApiError) →
      (waitForV1CRD staleCRD (fun _ => { get := .ok staleCRD }) none).ret =
        some (.errorWaiting .timedOut)) :=
  pollCadence_timeoutBound staleCRD (fun _ => { get := .ok staleCRD }) none rfl
    (fun _ => ⟨staleCRD, rfl, rfl⟩)

/-- Wait-loop environments whose every refetch fails. -/
def getBoomEnvs : Nat → WaitEnv :=
  fun _ => { get := .error (.otherErr "get boom") }

/-- Counterexample to C1: the ready-wait phase fails with "get boom" and the
compensating delete fails with "delete boom"; the returned error's message is
exactly "unable to delete CRD: delete boom", which does not contain the
original wait failure's message — the returned error does not report both
failures. -/
theorem waitForV1CRD_bothErrors_cex :
    (waitForV1CRD staleCRD getBoomEnvs (some (.otherErr "delete boom"))).pollResult =
      .terminal (.api (.otherErr "get boom")) ∧
    renderWaitErr (.api (.otherErr "get boom")) = "get boom" ∧
    (waitForV1CRD staleCRD getBoomEnvs (some (.otherErr "delete boom"))).ret.map
      renderWaitRetErr = some "unable to delete CRD: delete boom" ∧
    strContains "unable to delete CRD: delete boom" "get boom" = false := by
  refine ⟨?_, rfl, ?_, ?_⟩ <;> decide

/-- C1 (amended): when the ready-wait phase fails and the compensating
deletion also fails, the returned error carries only the deletion failure —
its message is "unable to delete CRD: " followed by the deletion error's
message, and the original wait failure is logged but not part of the
returned error — and one delete was issued. -/
theorem waitForV1CRD_deleteFailure (crd : CRD) (envs : Nat → WaitEnv)
    (de : ApiError)
    (hfail : (poll (waitStep envs) waitPollParams.attempts crd).result.isSuccess =
      false) :
    (waitForV1CRD crd envs (some de)).ret = some (.unableToDelete de) ∧
    ((waitForV1CRD crd envs (some de)).ret.map renderWaitRetErr =
      some ("unable to delete CRD: " ++ renderApiError de)) ∧
    (waitForV1CRD crd envs (some de)).deletes = 1 := by
  rcases hrun : poll (waitStep envs) waitPollParams.attempts crd with ⟨res, cls⟩
  rw [hrun] at hfail
  unfold waitForV1CRD
  rw [hrun]
  cases res with
  | success s => simp [PollResult.isSuccess] at hfail
  | terminal e => exact ⟨rfl, rfl, rfl⟩
  | timeout s => exact ⟨rfl, rfl, rfl⟩

/-- Witness for the amended C1: failing refetches followed by a failing
delete return exactly the delete error's message. -/
theorem waitForV1CRD_deleteFailure_witness :
    (waitForV1CRD staleCRD getBoomEnvs (some (.otherErr "delete boom"))).ret =
      some (.unableToDelete (.otherErr "delete boom")) ∧
    ((waitForV1CRD staleCRD getBoomEnvs (some (.otherErr "delete boom"))).ret.map
      renderWaitRetErr = some ("unable to delete CRD: " ++
        renderApiError (.otherErr "delete boom"))) ∧
    (waitForV1CRD staleCRD getBoomEnvs (some (.otherErr "delete boom"))).deletes = 1 :=
  waitForV1CRD_deleteFailure staleCRD getBoomEnvs (.otherErr "delete boom") (by decide)

/-- C5: when the lookup reports not-found and the subsequent Create fails
with already-exists (a concurrent installer won the race), the per-kind
reconciliation returns success immediately: no Update call, no wait-phase
predicate invocation, no delete. -/
theorem createUpdateCRD_alreadyExists_success (K : Consts) (crd : CRD)
    (env : ReconcileEnv) (e ce : ApiError)
    (hg : env.initialGet = .error e) (hnf : e.isNotFound = true)
    (hc : env.createResult = .error ce) (hae : ce.isAlreadyExists = true) :
    createUpdateCRD K true crd env =
      some (.done { err := none, updatesIssued := 0, applyCalls := 0
                    waitCalls := 0, deletes := 0 }) := by
  simp [createUpdateCRD, createUpdateV1Body, hg, hnf, hc, hae]

/-- Remote-call outcomes of a run that loses the creation race. -/
def raceEnv : ReconcileEnv :=
  { initialGet := .error (.notFound "crd not found")
    createResult := .error (.alreadyExists "crd already exists")
    applyEnvs := fun _ => { get := .ok staleCRD, update := none }
    waitEnvs := fun _ => { get := .ok staleCRD }
    deleteResult := none }

/-- Witness for C5 at the race fixture. -/
theorem createUpdateCRD_alreadyExists_success_witness :
    createUpdateCRD K0 true baseCRD raceEnv =
      some (.done { err := none, updatesIssued := 0, applyCalls := 0
                    waitCalls := 0, deletes := 0 }) :=
  createUpdateCRD_alreadyExists_success K0 baseCRD raceEnv
    (.notFound "crd not found") (.alreadyExists "crd already exists")
    rfl rfl rfl rfl

/-- Remote-call outcomes of a run whose update-if-stale phase fails. -/
def updFailEnv : ReconcileEnv :=
  { initialGet := .ok staleCRD
    createResult := .ok staleCRD
    applyEnvs := fun _ => { get := .ok staleCRD, update := some (.otherErr "update boom") }
    waitEnvs := fun _ => { get := .ok staleCRD }
    deleteResult := none }

/-- Counterexample to C2: a fatal failure in the update-if-stale phase
returns its error with zero Delete calls issued — no compensating deletion
is attempted for a step-2 failure. -/
theorem createUpdateCRD_updateFailure_noDelete_cex :
    ((createUpdateCRD K0 true baseCRD updFailEnv).bind FlowOutcome.flowResult).map
      FlowResult.err =
      some (some (.updateFailed (.cond (.otherErr "update boom")))) ∧
    ((createUpdateCRD K0 true baseCRD updFailEnv).bind FlowOutcome.flowResult).map
      FlowResult.deletes = some 0 := by
  refine ⟨?_, ?_⟩ <;> decide

/-- Helper: `afterLookup` deletes only on wait-phase failure. -/
lemma afterLookup_deletes (K : Consts) (crd clusterCRD : CRD)
    (env : ReconcileEnv) (r : FlowResult)
    (h : afterLookup K crd clusterCRD env = some r) :
    ((∃ e, r.err = some (.updateFailed e)) → r.deletes = 0) ∧
    ((∃ e, r.err = some (.waitFailed e)) → r.deletes = 1) := by
  unfold afterLookup at h
  cases hu : updateV1CRD K crd clusterCRD env.applyEnvs with
  | none => rw [hu] at h; cases h
  | some run =>
    rw [hu] at h
    dsimp only at h
    cases he : applyResErr run.res with
    | some e =>
      rw [he] at h
      injection h with h
      subst h
      refine ⟨fun _ => rfl, ?_⟩
      rintro ⟨e', he'⟩
      simp at he'
    | none =>
      rw [he] at h
      injection h with h
      subst h
      constructor
      · rintro ⟨e, he'⟩
        rcases hret : (waitForV1CRD clusterCRD env.waitEnvs env.deleteResult).ret
          with _ | x <;> simp [hret] at he'
      · rintro ⟨e, he'⟩
        rcases hret : (waitForV1CRD clusterCRD env.waitEnvs env.deleteResult).ret
          with _ | x
        · simp [hret] at he'
        · exact waitForV1CRD_ret_deletes clusterCRD env.waitEnvs env.deleteResult
            (by simp [hret])

/-- C2 (amended): only a fatal failure in the wait-for-ready phase (step 3)
triggers the compensating deletion of the kind's cluster object; a fatal
failure in the update-if-stale phase (step 2) returns its error without any
deletion being attempted. -/
theorem createUpdateCRD_deleteOnWaitFailureOnly (K : Consts) (crd : CRD)
    (env : ReconcileEnv) (r : FlowResult)
    (h : createUpdateCRD K true crd env = some (.done r)) :
    ((∃ e, r.err = some (.updateFailed e)) → r.deletes = 0) ∧
    ((∃ e, r.err = some (.waitFailed e)) → r.deletes = 1) := by
  have hb : createUpdateV1Body K crd env = some r := by
    unfold createUpdateCRD at h
    simp only [if_true] at h
    cases hb : createUpdateV1Body K crd env with
    | none => rw [hb] at h; cases h
    | some r' =>
      rw [hb] at h
      injection h with h
      injection h with h
      rw [h]
  unfold createUpdateV1Body at hb
  cases hg : env.initialGet with
  | ok clusterCRD =>
    rw [hg] at hb
    exact afterLookup_deletes K crd clusterCRD env r hb
  | error e =>
    rw [hg] at hb
    dsimp only at hb
    by_cases hnf : e.isNotFound = true
    · rw [if_pos hnf] at hb
      cases hc : env.createResult with
      | ok clusterCRD =>
        rw [hc] at hb
        exact afterLookup_deletes K crd clusterCRD env r hb
      | error ce =>
        rw [hc] at hb
        dsimp only at hb
        by_cases hae : ce.isAlreadyExists = true
        · rw [if_pos hae] at hb
          injection hb with hb
          subst hb
          exact ⟨fun _ => rfl, by rintro ⟨e', he'⟩; cases he'⟩
        · rw [if_neg hae] at hb
          injection hb with hb
          subst hb
          refine ⟨fun _ => rfl, ?_⟩
          rintro ⟨e', he'⟩
          cases he'
    · rw [if_neg hnf] at hb
      injection hb with hb
      subst hb
      refine ⟨fun _ => rfl, ?_⟩
      rintro ⟨e', he'⟩
      cases he'

/-- Remote-call outcomes of a run whose wait-for-ready phase fails (every
refetch errors) and whose compensating delete succeeds. -/
def waitFailEnv : ReconcileEnv :=
  { initialGet := .ok staleCRD
    createResult := .ok staleCRD
    applyEnvs := fun _ => { get := .ok staleCRD, update := none }
    waitEnvs := fun _ => { get := .error (.otherErr "wait boom") }
    deleteResult := none }

/-- The flow result of `waitFailEnv`: the apply phase succeeds with one
write, the wait phase fails terminally and one delete is issued. -/
def waitFailResult : FlowResult :=
  { err := some (.waitFailed (.errorWaiting (.cond (.api (.otherErr "wait boom")))))
    updatesIssued := 1, applyCalls := 1, waitCalls := 1, deletes := 1 }

/-- Witness for the amended C2 at a wait-failure run. -/
theorem createUpdateCRD_deleteOnWaitFailureOnly_witness :
    ((∃ e, waitFailResult.err = some (.updateFailed e)) →
      waitFailResult.deletes = 0) ∧
    ((∃ e, waitFailResult.err = some (.waitFailed e)) →
      waitFailResult.deletes = 1) :=
  createUpdateCRD_deleteOnWaitFailureOnly K0 baseCRD waitFailEnv waitFailResult
    (by decide)

end CrdRegister
